import Mathlib

/-!
Verification development for the deepseek-agent repository: a shallow
embedding of the workspace-scoped file operations (`file_ops.py`), the tool
executor (`tool_executor.py`) and the tool-calling orchestration loop
(`cli_with_tools.py`), together with theorems settling the spec's claims.

Machine strings are modelled as Lean `String`s, but all operations that must
evaluate inside proofs are implemented over `List Char` so the kernel can
reduce them.
-/

/-! ## Generic string helpers (List Char based) -/

/-- Python `str.startswith`: the candidate's character sequence is a prefix. -/
def strStartsWith (s pre : String) : Bool :=
  List.isPrefixOf pre.toList s.toList

/-- Python `str.join`-style intercalation over components. -/
def joinSep (sep : String) : List String → String
  | [] => ""
  | [x] => x
  | x :: xs => x ++ sep ++ joinSep sep xs

/-- Python `str.lower` restricted to ASCII (sufficient for the paths the
program manipulates; `Char.toLower` mirrors CPython on ASCII). -/
def pyLower (s : String) : String :=
  ⟨s.toList.map Char.toLower⟩

/-- Membership of a substring, Python's `needle in haystack`. -/
def containsSub (haystack needle : String) : Bool :=
  (List.range (haystack.toList.length + 1)).any
    (fun i => List.isPrefixOf needle.toList (haystack.toList.drop i))

/-! ## Path model

`pathlib.Path.resolve()` is modelled symlink-free: an absolute path is a list
of components from the filesystem root, and resolution normalizes `.` and
`..` after joining a relative path onto the workspace root.  `str(path)`
renders `/` followed by `/`-joined components. -/

/-- A path argument as the Python code receives it: absolute or relative,
with raw components that may still contain `.` and `..`. -/
inductive PyPath where
  | abs (comps : List String)
  | rel (comps : List String)
deriving DecidableEq

/-- Normalization of `.`/`..` performed by `Path.resolve()` (symlink-free):
`.` and empty components vanish, `..` pops the previous component (and is a
no-op at the root). -/
def normComps (cs : List String) : List String :=
  cs.foldl
    (fun acc c =>
      if c = "." ∨ c = "" then acc
      else if c = ".." then acc.dropLast
      else acc ++ [c])
    []

/-- `Path(file_path); if not path.is_absolute(): path = workspace_root / path`
followed by `path.resolve()`: the resolved absolute component list. -/
def resolveAgainst (workspace : List String) : PyPath → List String
  | .abs cs => normComps cs
  | .rel cs => normComps (workspace ++ cs)

/-- `str()` of a resolved absolute path. -/
def renderAbs (cs : List String) : String :=
  "/" ++ joinSep "/" cs

/-- `FileOperations._is_safe_path` (file_ops.py lines 37-44): compares the
STRING rendering of the resolved path against the string rendering of the
resolved workspace root with `str.startswith`.  The workspace root is taken
already resolved (normalized). -/
def is_safe_path (workspace : List String) (p : PyPath) : Bool :=
  strStartsWith (renderAbs (resolveAgainst workspace p)) (renderAbs workspace)

/-- The spec's containment notion: the resolved location is at or beneath the
workspace root, i.e. the root's components are a component-wise prefix of the
resolved path's components. -/
def beneathRoot (workspace resolved : List String) : Bool :=
  List.isPrefixOf workspace resolved

/-- `FileOperations.write_file` up to the point of mutation (file_ops.py
lines 81-98): the guard that decides whether the filesystem is touched.
When it returns `true` the code proceeds to `mkdir(parents=True)` and
`open(path, 'w')`, i.e. mutates at the resolved location. -/
def write_file_permitted (workspace : List String) (p : PyPath) : Bool :=
  is_safe_path workspace p

-- sanity: a relative path stays inside, a dot-dot escape is rejected
example : is_safe_path ["w"] (.rel ["a", "b.txt"]) = true := by decide
example : is_safe_path ["w"] (.rel ["..", "etc", "passwd"]) = false := by decide
example : is_safe_path ["w"] (.abs ["etc", "passwd"]) = false := by decide

/-! ## `ToolExecutor._clean_file_path` (tool_executor.py lines 18-43) -/

/-- The placeholder prefixes the executor strips, in source order. -/
def placeholder_patterns : List String :=
  ["/path/to/", "/your/path/", "/home/user/", "C:/path/to/", "C:\\path\\to\\", "~/"]

/-- The `for pattern in placeholder_patterns` loop: strip the first matching
pattern and `break`. -/
def stripFirstPlaceholder : List String → String → String
  | [], s => s
  | p :: ps, s =>
      if strStartsWith s p then ⟨s.toList.drop p.toList.length⟩
      else stripFirstPlaceholder ps s

/-- `file_path.lstrip('/\\')`. -/
def lstripSlashes (s : String) : String :=
  ⟨s.toList.dropWhile (fun c => c = '/' || c = '\\')⟩

/-- `ToolExecutor._clean_file_path`, parameterized by the platform
(`os.name == 'nt'`). -/
def clean_file_path (isWindows : Bool) (s : String) : String :=
  let s1 := stripFirstPlaceholder placeholder_patterns s
  let s2 := if isWindows && strStartsWith s1 "/" then ⟨s1.toList.drop 1⟩ else s1
  lstripSlashes s2

/-! ## UTF-8 decoding with replacement

Model of CPython's `bytes.decode(errors="replace")`: invalid sequences are
replaced by U+FFFD following the maximal-subpart convention CPython uses. -/

def replChar : Char := Char.ofNat 0xFFFD

def isContByte (b : Nat) : Bool := 128 ≤ b && b ≤ 191

/-- Allowed first continuation byte for a 3-byte lead (excludes overlong
encodings and surrogates, as CPython does). -/
def cont3ok (lead c1 : Nat) : Bool :=
  if lead = 224 then 160 ≤ c1 && c1 ≤ 191
  else if lead = 237 then 128 ≤ c1 && c1 ≤ 159
  else isContByte c1

/-- Allowed first continuation byte for a 4-byte lead. -/
def cont4ok (lead c1 : Nat) : Bool :=
  if lead = 240 then 144 ≤ c1 && c1 ≤ 191
  else if lead = 244 then 128 ≤ c1 && c1 ≤ 143
  else isContByte c1

def utf8Decode : List Nat → List Char
  | [] => []
  | b :: rest =>
    if b ≤ 127 then Char.ofNat b :: utf8Decode rest
    else if 194 ≤ b && b ≤ 223 then
      match rest with
      | c1 :: rest2 =>
          if isContByte c1 then
            Char.ofNat ((b - 192) * 64 + (c1 - 128)) :: utf8Decode rest2
          else replChar :: utf8Decode (c1 :: rest2)
      | [] => [replChar]
    else if 224 ≤ b && b ≤ 239 then
      match rest with
      | c1 :: c2 :: rest3 =>
          if cont3ok b c1 && isContByte c2 then
            Char.ofNat ((b - 224) * 4096 + (c1 - 128) * 64 + (c2 - 128)) ::
              utf8Decode rest3
          else if cont3ok b c1 then replChar :: utf8Decode (c2 :: rest3)
          else replChar :: utf8Decode (c1 :: c2 :: rest3)
      | [c1] => if cont3ok b c1 then [replChar] else replChar :: utf8Decode [c1]
      | [] => [replChar]
    else if 240 ≤ b && b ≤ 244 then
      match rest with
      | c1 :: c2 :: c3 :: rest4 =>
          if cont4ok b c1 && isContByte c2 && isContByte c3 then
            Char.ofNat ((b - 240) * 262144 + (c1 - 128) * 4096 +
                (c2 - 128) * 64 + (c3 - 128)) :: utf8Decode rest4
          else if cont4ok b c1 && isContByte c2 then
            replChar :: utf8Decode (c3 :: rest4)
          else if cont4ok b c1 then replChar :: utf8Decode (c2 :: c3 :: rest4)
          else replChar :: utf8Decode (c1 :: c2 :: c3 :: rest4)
      | [c1, c2] =>
          if cont4ok b c1 && isContByte c2 then [replChar]
          else if cont4ok b c1 then replChar :: utf8Decode [c2]
          else replChar :: utf8Decode [c1, c2]
      | [c1] => if cont4ok b c1 then [replChar] else replChar :: utf8Decode [c1]
      | [] => [replChar]
    else replChar :: utf8Decode rest

/-- `bytes.decode(errors="replace")` as a `String`. -/
def utf8DecodeReplace (bs : List Nat) : String := ⟨utf8Decode bs⟩

-- sanity: plain ASCII decodes to itself, a lone continuation byte is replaced
example : utf8DecodeReplace [104, 105] = "hi" := by decide
example : utf8Decode [128] = [replChar] := by decide

/-! ## JSON values and `json.loads`

Model of the Python `json` module as far as the repository exercises it.
Floating-point literals are not modelled (no code path under verification
produces them): a number with a fractional or exponent part fails to parse. -/

inductive Json where
  | null
  | bool (b : Bool)
  | num (n : Int)
  | str (s : String)
  | arr (elems : List Json)
  | obj (fields : List (String × Json))

def braceOpen : Char := Char.ofNat 123
def braceClose : Char := Char.ofNat 125

/-- JSON whitespace (RFC 8259, what `json.loads` skips between tokens). -/
def jsonWs (c : Char) : Bool :=
  c = ' ' || c = '\t' || c = '\n' || c = '\r'

def jskipWs (cs : List Char) : List Char := cs.dropWhile jsonWs

def hexVal (c : Char) : Option Nat :=
  if '0' ≤ c ∧ c ≤ '9' then some (c.toNat - 48)
  else if 'a' ≤ c ∧ c ≤ 'f' then some (c.toNat - 87)
  else if 'A' ≤ c ∧ c ≤ 'F' then some (c.toNat - 55)
  else none

/-- Body of a JSON string after the opening quote; returns the decoded
string and the remainder after the closing quote.  Surrogate pairs in
`\uXXXX` escapes are not recombined (no claim exercises them). -/
def parseStrBody : Nat → List Char → List Char → Option (String × List Char)
  | 0, _, _ => none
  | _ + 1, acc, '"' :: rest => some (⟨acc.reverse⟩, rest)
  | fuel + 1, acc, '\\' :: e :: rest =>
      if e = '"' then parseStrBody fuel ('"' :: acc) rest
      else if e = '\\' then parseStrBody fuel ('\\' :: acc) rest
      else if e = '/' then parseStrBody fuel ('/' :: acc) rest
      else if e = 'b' then parseStrBody fuel (Char.ofNat 8 :: acc) rest
      else if e = 'f' then parseStrBody fuel (Char.ofNat 12 :: acc) rest
      else if e = 'n' then parseStrBody fuel ('\n' :: acc) rest
      else if e = 'r' then parseStrBody fuel ('\r' :: acc) rest
      else if e = 't' then parseStrBody fuel ('\t' :: acc) rest
      else if e = 'u' then
        match rest with
        | h1 :: h2 :: h3 :: h4 :: rest4 =>
            match hexVal h1, hexVal h2, hexVal h3, hexVal h4 with
            | some a, some b, some c, some d =>
                parseStrBody fuel
                  (Char.ofNat (a * 4096 + b * 256 + c * 16 + d) :: acc) rest4
            | _, _, _, _ => none
        | _ => none
      else none
  | fuel + 1, acc, c :: rest => parseStrBody fuel (c :: acc) rest
  | _ + 1, _, [] => none

/-- Integer literal: optional minus, then digits; a trailing `.`/`e`/`E`
(a float, unmodelled) makes the parse fail. -/
def parseIntLit (cs : List Char) : Option (Int × List Char) :=
  let (neg, cs1) := match cs with
    | '-' :: t => (true, t)
    | _ => (false, cs)
  let digits := cs1.takeWhile Char.isDigit
  let rest := cs1.dropWhile Char.isDigit
  if digits.isEmpty then none
  else
    match rest with
    | c :: _ =>
        if c = '.' || c = 'e' || c = 'E' then none
        else
          let n : Nat := digits.foldl (fun a c => a * 10 + (c.toNat - 48)) 0
          some (if neg then -(n : Int) else (n : Int), rest)
    | [] =>
        let n : Nat := digits.foldl (fun a c => a * 10 + (c.toNat - 48)) 0
        some (if neg then -(n : Int) else (n : Int), rest)

mutual

def parseJsonVal : Nat → List Char → Option (Json × List Char)
  | 0, _ => none
  | fuel + 1, cs =>
    match jskipWs cs with
    | [] => none
    | c :: rest =>
      if c = '"' then
        match parseStrBody (fuel + 1) [] rest with
        | some (s, rest2) => some (.str s, rest2)
        | none => none
      else if c = braceOpen then
        match jskipWs rest with
        | c2 :: rest2 =>
            if c2 = braceClose then some (.obj [], rest2)
            else
              match parseObjItems fuel (c2 :: rest2) with
              | some (fs, rest3) => some (.obj fs, rest3)
              | none => none
        | [] => none
      else if c = '[' then
        match jskipWs rest with
        | ']' :: rest2 => some (.arr [], rest2)
        | rest2 =>
            match parseArrItems fuel rest2 with
            | some (xs, rest3) => some (.arr xs, rest3)
            | none => none
      else if List.isPrefixOf ['t', 'r', 'u', 'e'] (c :: rest) then
        some (.bool true, (c :: rest).drop 4)
      else if List.isPrefixOf ['f', 'a', 'l', 's', 'e'] (c :: rest) then
        some (.bool false, (c :: rest).drop 5)
      else if List.isPrefixOf ['n', 'u', 'l', 'l'] (c :: rest) then
        some (.null, (c :: rest).drop 4)
      else if c = '-' || c.isDigit then
        match parseIntLit (c :: rest) with
        | some (n, rest2) => some (.num n, rest2)
        | none => none
      else none

/-- One or more comma-separated array items, up to and including `]`. -/
def parseArrItems : Nat → List Char → Option (List Json × List Char)
  | 0, _ => none
  | fuel + 1, cs =>
    match parseJsonVal fuel cs with
    | none => none
    | some (v, rest) =>
      match jskipWs rest with
      | ',' :: rest2 =>
          match parseArrItems fuel rest2 with
          | some (vs, rest3) => some (v :: vs, rest3)
          | none => none
      | ']' :: rest2 => some ([v], rest2)
      | _ => none

/-- One or more comma-separated `"key": value` pairs, up to and including
the closing brace. -/
def parseObjItems : Nat → List Char → Option (List (String × Json) × List Char)
  | 0, _ => none
  | fuel + 1, cs =>
    match jskipWs cs with
    | '"' :: rest =>
      match parseStrBody (fuel + 1) [] rest with
      | none => none
      | some (k, rest2) =>
        match jskipWs rest2 with
        | ':' :: rest3 =>
          match parseJsonVal fuel rest3 with
          | none => none
          | some (v, rest4) =>
            match jskipWs rest4 with
            | ',' :: rest5 =>
                match parseObjItems fuel rest5 with
                | some (fs, rest6) => some ((k, v) :: fs, rest6)
                | none => none
            | c :: rest5 =>
                if c = braceClose then some ([(k, v)], rest5) else none
            | [] => none
        | _ => none
    | _ => none

end

/-- `json.loads`: parse a complete JSON document, rejecting trailing data. -/
def jsonLoads (s : String) : Option Json :=
  match parseJsonVal (s.toList.length + 1) s.toList with
  | some (v, rest) => if (jskipWs rest).isEmpty then some v else none
  | none => none

-- sanity: the parser handles the shapes the orchestrator scrapes
example : jsonLoads "\x7b\"a\": 1\x7d" = some (.obj [("a", .num 1)]) := rfl
example : jsonLoads "[true, null]" = some (.arr [.bool true, .null]) := rfl

/-! ## `FileInfo` and the uniform `ToolResult` envelope -/

/-- `FileInfo` (file_ops.py lines 11-16). -/
structure FileInfo where
  path : String
  size : Nat
  modified : Int
  is_dir : Bool
  is_file : Bool
deriving DecidableEq

/-- One entry of the `files` list built by `ToolExecutor.list_directory`
(tool_executor.py lines 122-128): `size` is `None` for non-files. -/
structure ListedEntry where
  path : String
  is_dir : Bool
  size : Option Nat
deriving DecidableEq

/-- The duck-typed result dictionaries returned by every `ToolExecutor`
method, as one record with optional fields (a key absent from the Python
dict is `none`). -/
structure ToolResult where
  success : Bool
  error : Option String := none
  message : Option String := none
  file_path : Option String := none
  content : Option String := none
  files : Option (List ListedEntry) := none
  total_count : Option Nat := none
  directory : Option String := none
  stdout : Option String := none
  stderr : Option String := none
  return_code : Option Int := none
  command : Option String := none
  «matches» : Option (List String) := none
  next_action : Option String := none
  pattern : Option String := none
deriving DecidableEq

/-- `{"success": False, "error": e}`. -/
def toolError (e : String) : ToolResult := { success := false, error := some e }

/-! ## Command Runner (`ToolExecutor.run_command`, tool_executor.py 139-184)

The subprocess itself is the external world; its behaviour is an abstract
`CmdOutcome`.  The embedding covers what the code does with each outcome. -/

inductive CmdOutcome where
  | completed (stdoutBytes stderrBytes : List Nat) (code : Int)
  | timedOut
  | launchFailed (msg : String)

/-- Result construction of `run_command`: the empty-command guard, the
`asyncio.TimeoutError` branch, the outer `except` (launch failures), and the
success path decoding both streams independently with `errors="replace"`.
`stdout.decode(...) if stdout else ""` agrees with decoding the empty byte
string, so it is folded into the decode. -/
def run_command_result (command : String) (timeout : Nat) (outcome : CmdOutcome) :
    ToolResult :=
  if command = "" then toolError "command is required"
  else
    match outcome with
    | .timedOut =>
        { success := false
          error := some ("Command timed out after " ++ toString timeout ++ " seconds")
          command := some command }
    | .launchFailed e => toolError e
    | .completed o e c =>
        { success := true
          stdout := some (utf8DecodeReplace o)
          stderr := some (utf8DecodeReplace e)
          return_code := some c
          command := some command }

/-- `process.kill()` is invoked exactly in the `asyncio.TimeoutError` branch
(tool_executor.py line 169). -/
def run_command_kills (command : String) (outcome : CmdOutcome) : Bool :=
  if command = "" then false
  else match outcome with
    | .timedOut => true
    | _ => false

/-! ## Tool Dispatcher (`ToolExecutor.execute` and the per-tool methods)

`FileOperations` and the subprocess layer are reached through an explicit
environment: `Except.error e` stands for a raised exception whose `str()` is
`e`, which each per-tool `except` handler converts into
`{"success": False, "error": str(e)}`. -/

structure ToolEnv where
  writeFileOp : String → String → Except String Bool
  readFileOp : String → Except String String
  listDirectoryOp : String → Except String (List FileInfo)
  findFilesOp : String → Except String (List String)
  runOutcome : String → Nat → CmdOutcome

/-- `args.get(key, default)` over the argument mapping.  `json.loads` keeps
the last duplicate key, hence the last-binding lookup. -/
def argGet (args : List (String × Json)) (k : String) (d : Json) : Json :=
  match (args.filter (fun p => p.1 = k)).getLast? with
  | some p => p.2
  | none => d

/-- `ToolExecutor.write_file` (lines 64-93).  A non-string `file_path` or
`content` raises (`startswith` / `f.write` on a non-str) inside the `try`
and is caught; it is modelled by the same error envelope. -/
def executeWriteFile (env : ToolEnv) (isWindows : Bool)
    (args : List (String × Json)) : ToolResult :=
  match argGet args "file_path" (.str "") with
  | .str fp =>
      if fp = "" then toolError "file_path is required"
      else
        match argGet args "content" (.str "") with
        | .str content =>
            let cleaned := clean_file_path isWindows fp
            match env.writeFileOp cleaned content with
            | .ok _ =>
                { success := true
                  message := some ("File written successfully: " ++ cleaned ++
                    ". You should now run this file to verify it works.")
                  file_path := some cleaned
                  next_action := some "Use run_command to execute this file" }
            | .error e => toolError e
        | _ => toolError "content must be a string"
  | _ => toolError "file_path must be a string"

/-- `ToolExecutor.read_file` (lines 95-114). -/
def executeReadFile (env : ToolEnv) (isWindows : Bool)
    (args : List (String × Json)) : ToolResult :=
  match argGet args "file_path" (.str "") with
  | .str fp =>
      if fp = "" then toolError "file_path is required"
      else
        let cleaned := clean_file_path isWindows fp
        match env.readFileOp cleaned with
        | .ok content =>
            { success := true, content := some content, file_path := some cleaned }
        | .error e => toolError e
  | _ => toolError "file_path must be a string"

/-- `ToolExecutor.list_directory` (lines 116-137): truncates the displayed
list to 50 entries but reports the full count. -/
def executeListDirectory (env : ToolEnv) (args : List (String × Json)) :
    ToolResult :=
  match argGet args "directory" (.str ".") with
  | .str dir =>
      match env.listDirectoryOp dir with
      | .ok files =>
          { success := true
            files := some ((files.take 50).map (fun fi =>
              { path := fi.path
                is_dir := fi.is_dir
                size := if fi.is_file then some fi.size else none }))
            total_count := some files.length
            directory := some dir }
      | .error e => toolError e
  | _ => toolError "directory must be a string"

/-- `ToolExecutor.find_files` (lines 186-203): truncates matches to 100 but
reports the full count. -/
def executeFindFiles (env : ToolEnv) (args : List (String × Json)) :
    ToolResult :=
  match argGet args "pattern" (.str "") with
  | .str pat =>
      if pat = "" then toolError "pattern is required"
      else
        match env.findFilesOp pat with
        | .ok ms =>
            { success := true
              «matches» := some (ms.take 100)
              total_count := some ms.length
              pattern := some pat }
        | .error e => toolError e
  | _ => toolError "pattern must be a string"

/-- `ToolExecutor.run_command` argument handling (lines 139-146):
`args.get("timeout", 30)` with a non-numeric value left to the default. -/
def executeRunCommand (env : ToolEnv) (args : List (String × Json)) :
    ToolResult :=
  match argGet args "command" (.str "") with
  | .str cmd =>
      let timeout : Nat :=
        match argGet args "timeout" (.num 30) with
        | .num n => n.toNat
        | _ => 30
      run_command_result cmd timeout (env.runOutcome cmd timeout)
  | _ => toolError "command must be a string"

/-- `ToolExecutor.execute` (tool_executor.py lines 45-62): the fixed
registry dispatch; any other name gets the unknown-tool envelope. -/
def executeTool (env : ToolEnv) (isWindows : Bool) (name : String)
    (args : List (String × Json)) : ToolResult :=
  if name = "write_file" then executeWriteFile env isWindows args
  else if name = "read_file" then executeReadFile env isWindows args
  else if name = "list_directory" then executeListDirectory env args
  else if name = "run_command" then executeRunCommand env args
  else if name = "find_files" then executeFindFiles env args
  else toolError ("Unknown tool: " ++ name)

/-! ## Orchestrator: embedded pseudo-tool-call scraping
(`ToolAgentCLI.process_command`, cli_with_tools.py lines 330-391) -/

/-- Python `str.strip()` whitespace set. -/
def pyWs (c : Char) : Bool :=
  c = ' ' || c = '\t' || c = '\n' || c = '\r' ||
    c = Char.ofNat 12 || c = Char.ofNat 11

/-- Python `str.strip()`. -/
def pyStrip (s : String) : String :=
  ⟨((s.toList.dropWhile pyWs).reverse.dropWhile pyWs).reverse⟩

/-- Python regex `\s`. -/
def reSpace (c : Char) : Bool := pyWs c

/-- Does the regex `\[\s*\{\s*"name"\s*:` match starting at the head of the
character list? -/
def matchArrStart (cs : List Char) : Bool :=
  match cs with
  | '[' :: rest =>
    match rest.dropWhile reSpace with
    | c :: rest2 =>
      if c = braceOpen then
        let r2 := rest2.dropWhile reSpace
        if List.isPrefixOf ('"' :: 'n' :: 'a' :: 'm' :: 'e' :: '"' :: []) r2 then
          match (r2.drop 6).dropWhile reSpace with
          | ':' :: _ => true
          | _ => false
        else false
      else false
    | [] => false
  | _ => false

/-- `re.finditer(r'\[\s*\{\s*"name"\s*:', content)` start offsets.  The
pattern cannot match inside one of its own matches, so every matching
position is a finditer start. -/
def findStarts (cs : List Char) : List Nat :=
  (List.range cs.length).filter (fun i => matchArrStart (cs.drop i))

/-- The balanced-bracket scan of cli_with_tools.py lines 348-358: counts
`[`/`]` from `start` and stops one past the bracket that returns the count
to zero; if that never happens, `end_pos` stays at `start`. -/
def bracketEndAux : List Char → Nat → Int → Option Nat
  | [], _, _ => none
  | c :: rest, i, count =>
      if c = '[' then bracketEndAux rest (i + 1) (count + 1)
      else if c = ']' then
        if count - 1 = 0 then some (i + 1)
        else bracketEndAux rest (i + 1) (count - 1)
      else bracketEndAux rest (i + 1) count

def findBracketEnd (cs : List Char) (start : Nat) : Nat :=
  match bracketEndAux (cs.drop start) start 0 with
  | some e => e
  | none => start

/-- `content[start:stop]`. -/
def sliceStr (cs : List Char) (start stop : Nat) : String :=
  ⟨(cs.drop start).take (stop - start)⟩

/-- The registry the text-scraped names are validated against
(cli_with_tools.py line 365). -/
def valid_tools : List String :=
  ["write_file", "run_command", "read_file", "list_directory", "find_files"]

/-- A tool call as the orchestrator hands it to `process_tool_calls`:
the `function.name` / `function.arguments` payload. -/
structure WireCall where
  name : String
  args : Json

/-- Conversion of one parsed fragment into wire calls (lines 364-377):
iterate the array (or the lone object), keep dict items that carry both
`name` and `arguments`, warn-and-skip names outside the registry (a
non-string name is likewise never in the registry). -/
def callsOfJson (v : Json) : List WireCall :=
  let items := match v with
    | .arr xs => xs
    | other => [other]
  items.filterMap (fun item =>
    match item with
    | .obj fields =>
      match argGet fields "name" .null, fields.filter (fun p => p.1 = "arguments") with
      | .str n, _ :: _ =>
          if n ∈ valid_tools then
            some { name := n, args := argGet fields "arguments" .null }
          else none
      | _, _ => none
    | _ => none)

/-- The full fallback scraper over a (stripped) textual response: the
`'[{"name"' in content or '{"name"' in content` guard, then one JSON parse
per balanced fragment found by `findStarts`; fragments that fail to parse
are skipped (`except json.JSONDecodeError: pass`). -/
def extractToolCalls (content : String) : List WireCall :=
  if containsSub content ("[\x7b\"name\"") || containsSub content ("\x7b\"name\"") then
    (findStarts content.toList).foldl
      (fun acc start =>
        let e := findBracketEnd content.toList start
        if start < e then
          match jsonLoads (sliceStr content.toList start e) with
          | some v => acc ++ callsOfJson v
          | none => acc
        else acc)
      []
  else []

/-! ## Orchestrator: the bounded per-turn loop
(`ToolAgentCLI.process_command`, cli_with_tools.py lines 286-411) -/

/-- What one completed model response carries: the structured `tool_calls`
channel and the textual content. -/
structure ModelResp where
  toolCalls : List WireCall
  content : Option String

/-- `process_tool_calls` (cli_with_tools.py lines 202-243): arguments that
arrive as a JSON string are `json.loads`-ed (`{}` on failure); every call is
pushed through `ToolExecutor.execute` in order. -/
def wireArgs : Json → List (String × Json)
  | .obj fields => fields
  | .str s =>
      match jsonLoads s with
      | some (.obj fields) => fields
      | _ => []
  | _ => []

def processToolCalls (env : ToolEnv) (isWindows : Bool)
    (calls : List WireCall) : List ToolResult :=
  calls.map (fun c => executeTool env isWindows c.name (wireArgs c.args))

/-- Observable trace of one user turn: how many chat requests were issued
and which tool calls were dispatched, in dispatch order. -/
structure TurnTrace where
  requests : Nat
  dispatched : List WireCall

/-- The `while iteration < max_iterations` body.  `script n` is the model
server's completed response to request number `n` (`none`: the stream ended
with no `done` response, the `break` at line 307).  Fuel is the number of
iterations still allowed; each loop entry issues exactly one chat request.
Priority order inside an iteration: structured tool calls (dispatch, then
`continue`), then text-scraped calls on the stripped content (dispatch, then
`continue`), otherwise the content is a plain answer and the trailing
`break` ends the turn. -/
def turnLoop (script : Nat → Option ModelResp) :
    Nat → Nat → List WireCall → TurnTrace
  | 0, reqs, disp => { requests := reqs, dispatched := disp }
  | fuel + 1, reqs, disp =>
    match script reqs with
    | none => { requests := reqs + 1, dispatched := disp }
    | some resp =>
      match resp.toolCalls with
      | _ :: _ => turnLoop script fuel (reqs + 1) (disp ++ resp.toolCalls)
      | [] =>
        match resp.content with
        | some c =>
          -- `if message and message.content:` — an empty string is falsy
          if c = "" then { requests := reqs + 1, dispatched := disp }
          else
            match extractToolCalls (pyStrip c) with
            | [] => { requests := reqs + 1, dispatched := disp }
            | found => turnLoop script fuel (reqs + 1) (disp ++ found)
        | none => { requests := reqs + 1, dispatched := disp }

/-- `max_iterations = 5` (cli_with_tools.py line 286). -/
def max_iterations : Nat := 5

/-- One user turn of `process_command` from the first chat request on. -/
def processTurn (script : Nat → Option ModelResp) : TurnTrace :=
  turnLoop script max_iterations 0 []

/-! ## `FileOperations.read_file` (file_ops.py lines 53-79)

The filesystem state and the codec layer are abstract: `present`/`isFile`
describe the resolved path, and each `dEnc : Option String` is the outcome of
opening the file with that encoding (`none` = `UnicodeDecodeError`).
`pathStr` is the `str()` of the joined path used in the error messages. -/

/-- The exception classes `read_file` raises, with their messages. -/
inductive FileErr where
  | valueError (msg : String)
  | fileNotFound (msg : String)
deriving DecidableEq

/-- Control flow of `read_file`: safety check, existence check, file check,
then UTF-8 with the `['latin-1', 'cp1252', 'utf-16']` fallback loop. -/
def read_file_op (pathStr : String) (safe present isFile : Bool)
    (dUtf8 dLatin1 dCp1252 dUtf16 : Option String) : Except FileErr String :=
  if safe = false then
    .error (.valueError ("Path " ++ pathStr ++ " is outside workspace"))
  else if present = false then
    .error (.fileNotFound ("File " ++ pathStr ++ " not found"))
  else if isFile = false then
    .error (.valueError ("Path " ++ pathStr ++ " is not a file"))
  else
    match dUtf8 with
    | some s => .ok s
    | none =>
      match dLatin1 with
      | some s => .ok s
      | none =>
        match dCp1252 with
        | some s => .ok s
        | none =>
          match dUtf16 with
          | some s => .ok s
          | none => .error (.valueError ("Could not decode file " ++ pathStr))

/-! ## `FileOperations.list_directory` (file_ops.py lines 100-137)

One directory entry as `path.iterdir()` yields it: `name` is `item.name`,
`relPath` is `str(item.relative_to(workspace_root))`, and the entries list is
in iteration order. -/

structure DirEntry where
  name : String
  relPath : String
  size : Nat
  modified : Int
  is_dir : Bool
  is_file : Bool
deriving DecidableEq

/-- The `FileInfo(...)` record built per entry. -/
def fiOfEntry (e : DirEntry) : FileInfo :=
  { path := e.relPath, size := e.size, modified := e.modified
    is_dir := e.is_dir, is_file := e.is_file }

/-- The two `continue` filters of the listing loop: hidden names are skipped
unless `include_hidden`, ignored paths are skipped unconditionally. -/
def keepEntry (includeHidden : Bool) (ignore : String → Bool) (e : DirEntry) :
    Bool :=
  (includeHidden || !(strStartsWith e.name ".")) && !(ignore e.relPath)

/-- The comparison induced by `key=lambda x: (not x.is_dir, x.path.lower())`:
tuple order on (bool, str), directories (key 0) before files (key 1). -/
def fiLE (a b : FileInfo) : Bool :=
  let ka : Nat := if a.is_dir then 0 else 1
  let kb : Nat := if b.is_dir then 0 else 1
  if ka < kb then true
  else if kb < ka then false
  else decide (pyLower a.path ≤ pyLower b.path)

/-- `list_directory` minus the error paths (containment, existence,
directory and permission checks), which precede the loop: filter, build
`FileInfo`s, then Python's stable `sorted` with the tuple key. -/
def list_directory (entries : List DirEntry) (includeHidden : Bool)
    (ignore : String → Bool) : List FileInfo :=
  List.mergeSort ((entries.filter (keepEntry includeHidden ignore)).map fiOfEntry)
    fiLE

/-! # Theorems -/

/-! ## C1 — path containment -/

/-- Claim C1 (code_bug evaluation): with workspace root `/w`, the absolute
argument `/wx/secret` resolves to `/wx/secret`, which is NOT at or beneath
`/w`, yet `_is_safe_path` accepts it (its string-prefix test sees `/w` as a
prefix of `/wx/secret`) and `write_file` therefore proceeds to mutate the
filesystem outside the workspace instead of failing with a containment
error. -/
theorem C1_containment_violated_at_sibling_path :
    is_safe_path ["w"] (.abs ["wx", "secret"]) = true ∧
    write_file_permitted ["w"] (.abs ["wx", "secret"]) = true ∧
    beneathRoot ["w"] (resolveAgainst ["w"] (.abs ["wx", "secret"])) = false ∧
    renderAbs (resolveAgainst ["w"] (.abs ["wx", "secret"])) = "/wx/secret" := by
  decide

/-! ## C2 / C3 — the bounded iteration loop -/

/-- The structured tool calls carried by response number `i`, `[]` when the
stream did not complete. -/
def scriptCalls (script : Nat → Option ModelResp) (i : Nat) : List WireCall :=
  match script i with
  | some r => r.toolCalls
  | none => []

lemma turnLoop_requests_le (script : Nat → Option ModelResp) :
    ∀ fuel reqs disp, (turnLoop script fuel reqs disp).requests ≤ reqs + fuel := by
  intro fuel
  induction fuel with
  | zero => intro reqs disp; simp [turnLoop]
  | succ f ih =>
    intro reqs disp
    show (turnLoop script (f + 1) reqs disp).requests ≤ reqs + (f + 1)
    cases hs : script reqs with
    | none => simp [turnLoop, hs]
    | some r =>
      obtain ⟨calls, content⟩ := r
      cases calls with
      | cons a t =>
        have h := ih (reqs + 1) (disp ++ (a :: t))
        simp only [turnLoop, hs]
        omega
      | nil =>
        cases content with
        | none => simp [turnLoop, hs]
        | some c =>
          by_cases hc : c = ""
          · simp [turnLoop, hs, hc]
          · cases hx : extractToolCalls (pyStrip c) with
            | nil => simp [turnLoop, hs, hc, hx]
            | cons b u =>
              have h := ih (reqs + 1) (disp ++ (b :: u))
              simp only [turnLoop, hs, if_neg hc, hx]
              omega

lemma turnLoop_all_tool_calls (script : Nat → Option ModelResp)
    (h : ∀ i, ∃ r, script i = some r ∧ r.toolCalls ≠ []) :
    ∀ fuel reqs disp, turnLoop script fuel reqs disp =
      { requests := reqs + fuel
        dispatched :=
          disp ++ ((List.range' reqs fuel).map (scriptCalls script)).flatten } := by
  intro fuel
  induction fuel with
  | zero => intro reqs disp; simp [turnLoop, List.range']
  | succ f ih =>
    intro reqs disp
    obtain ⟨r, hr, hne⟩ := h reqs
    obtain ⟨calls, content⟩ := r
    cases calls with
    | nil => simp at hne
    | cons a t =>
      have step : turnLoop script (f + 1) reqs disp =
          turnLoop script f (reqs + 1) (disp ++ (a :: t)) := by
        simp [turnLoop, hr]
      rw [step, ih (reqs + 1) (disp ++ (a :: t))]
      have hcalls : scriptCalls script reqs = a :: t := by
        simp [scriptCalls, hr]
      simp [List.range', hcalls, List.append_assoc]
      omega

/-- Claim C2: every user turn issues at most `max_iterations = 5` chat
requests, and a scripted model whose every completed response carries a
structured tool call (never a plain answer) makes the loop issue exactly 5
requests and then stop. -/
theorem C2_iteration_bound (script : Nat → Option ModelResp) :
    (processTurn script).requests ≤ 5 ∧
    ((∀ i, ∃ r, script i = some r ∧ r.toolCalls ≠ []) →
      (processTurn script).requests = 5) := by
  constructor
  · simpa [processTurn, max_iterations] using turnLoop_requests_le script 5 0 []
  · intro h
    have := turnLoop_all_tool_calls script h 5 0 []
    simp [processTurn, max_iterations, this]

/-- A model that always answers with the same structured `write_file` call. -/
def alwaysToolScript : Nat → Option ModelResp := fun _ =>
  some { toolCalls := [{ name := "write_file", args := .null }], content := none }

/-- Witness for C2: on the concrete always-tool-call script the turn issues
exactly 5 requests. -/
theorem C2_iteration_bound_witness :
    (processTurn alwaysToolScript).requests = 5 :=
  (C2_iteration_bound alwaysToolScript).2
    (fun _ => ⟨_, rfl, by simp⟩)

/-- A scripted model whose response to request `i` is a single structured
tool call tagged with `i`. -/
def taggedToolScript : Nat → Option ModelResp := fun i =>
  some { toolCalls := [{ name := "run_command", args := .num (Int.ofNat i) }]
         content := none }

/-- Claim C3 (counterexample): against `taggedToolScript`, the capped (5th)
iteration's response carries the call tagged `4`, and that call IS
dispatched before the loop exits — contradicting the claim that tool calls
of the capped iteration are not dispatched. -/
theorem C3_capped_iteration_still_dispatches :
    ({ name := "run_command", args := .num 4 } : WireCall) ∈
      (processTurn taggedToolScript).dispatched ∧
    (processTurn taggedToolScript).requests = 5 := by
  constructor
  · rw [show (processTurn taggedToolScript).dispatched =
        [{ name := "run_command", args := .num 0 },
         { name := "run_command", args := .num 1 },
         { name := "run_command", args := .num 2 },
         { name := "run_command", args := .num 3 },
         { name := "run_command", args := .num 4 }] from rfl]
    exact .tail _ (.tail _ (.tail _ (.tail _ (.head _))))
  · rfl

/-- Claim C3 as amended: when every response carries tool calls, the turn
stops after exactly 5 requests (no 6th model request is issued), but the
tool calls of every processed response — the capped 5th one included — are
dispatched, in order; only the model's consumption of the last results is
forgone. -/
theorem C3_amended_cap_behaviour (script : Nat → Option ModelResp)
    (h : ∀ i, ∃ r, script i = some r ∧ r.toolCalls ≠ []) :
    (processTurn script).requests = 5 ∧
    (processTurn script).dispatched =
      ((List.range 5).map (scriptCalls script)).flatten := by
  have := turnLoop_all_tool_calls script h 5 0 []
  refine ⟨?_, ?_⟩ <;>
    simp [processTurn, max_iterations, this, List.range_eq_range']

/-- Witness for the amended C3: on the tagged script, the dispatched list is
exactly the five tagged calls (the 5th included). -/
theorem C3_amended_cap_behaviour_witness :
    (processTurn taggedToolScript).requests = 5 ∧
    (processTurn taggedToolScript).dispatched =
      ((List.range 5).map (scriptCalls taggedToolScript)).flatten :=
  C3_amended_cap_behaviour taggedToolScript (fun _ => ⟨_, rfl, by simp⟩)

/-! ## C4 / C5 — embedded pseudo-tool-call parsing -/

/-- A plain-text response embedding the claim's array fragment. -/
def c4Text : String :=
  "Sure, I will call the tool now: [\x7b\"name\": \"write_file\", \"arguments\": \x7b\"file_path\": \"x.txt\", \"content\": \"y\"\x7d\x7d] and report back."

/-- The same call as the structured channel would deliver it. -/
def c4Wire : WireCall :=
  { name := "write_file"
    args := .obj [("file_path", .str "x.txt"), ("content", .str "y")] }

/-- A text response naming a tool outside the registry. -/
def c4UnknownText : String :=
  "[\x7b\"name\": \"bogus_tool\", \"arguments\": \x7b\x7d\x7d]"

/-- Script: the embedded-text variant of the turn (first response carries
the fragment in plain text, second is a plain answer). -/
def c4TextScript : Nat → Option ModelResp := fun i =>
  if i = 0 then some { toolCalls := [], content := some c4Text }
  else some { toolCalls := [], content := some "Done." }

/-- Script: the structured variant of the same turn. -/
def c4StructScript : Nat → Option ModelResp := fun i =>
  if i = 0 then some { toolCalls := [c4Wire], content := none }
  else some { toolCalls := [], content := some "Done." }

set_option maxRecDepth 8192 in
/-- Claim C4: the text fragment is scraped into exactly the structured
call's payload; dispatching the scraped calls equals dispatching the
structured call for every environment (hence the same file effect); a whole
turn driven by the text response produces the identical trace to the turn
driven by the structured response; and an unknown tool name inside such a
fragment yields no dispatched call while the turn still terminates normally
after that response. -/
theorem C4_fallback_equals_structured :
    extractToolCalls (pyStrip c4Text) = [c4Wire] ∧
    (∀ (env : ToolEnv) (isWindows : Bool),
      processToolCalls env isWindows (extractToolCalls (pyStrip c4Text)) =
        processToolCalls env isWindows [c4Wire]) ∧
    (∀ (env : ToolEnv) (isWindows : Bool),
      processToolCalls env isWindows (extractToolCalls (pyStrip c4Text)) =
        [executeTool env isWindows "write_file"
          [("file_path", .str "x.txt"), ("content", .str "y")]]) ∧
    processTurn c4TextScript = processTurn c4StructScript ∧
    (processTurn c4TextScript).dispatched = [c4Wire] ∧
    extractToolCalls c4UnknownText = [] ∧
    processTurn (fun _ => some { toolCalls := [], content := some c4UnknownText }) =
      { requests := 1, dispatched := [] } := by
  have h1 : extractToolCalls (pyStrip c4Text) = [c4Wire] := rfl
  refine ⟨h1, fun env w => by rw [h1], fun env w => by rw [h1]; rfl,
    rfl, rfl, rfl, rfl⟩

/-- A bare `{"name": ..., "arguments": {...}}` object with no enclosing
array, exactly the fragment shape of claim C5. -/
def c5BareObj : String :=
  "\x7b\"name\": \"write_file\", \"arguments\": \x7b\"file_path\": \"x.txt\", \"content\": \"y\"\x7d\x7d"

set_option maxRecDepth 8192 in
/-- Claim C5 (counterexample): the scraper recovers nothing from a bare
object fragment — the scan only looks for array starts — so the turn
dispatches no tool call and treats the content as a plain answer, contrary
to the claim that a bare object is recovered and dispatched like an
array-enclosed one. -/
theorem C5_bare_object_not_recovered :
    extractToolCalls c5BareObj = [] ∧
    processTurn (fun _ => some { toolCalls := [], content := some c5BareObj }) =
      { requests := 1, dispatched := [] } := by
  exact ⟨rfl, rfl⟩

/-- Claim C5 as amended: only fragments that open with an array bracket
(the `\[\s*\{\s*"name"\s*:` pattern) are recovered; when the content
contains no such start — a bare object fragment in particular — no call is
recovered and the response is treated as a plain answer ending the turn
after one request. -/
theorem C5_amended_array_fragments_only (content : String)
    (hne : content ≠ "")
    (h : findStarts (pyStrip content).toList = []) :
    extractToolCalls (pyStrip content) = [] ∧
    processTurn (fun _ => some { toolCalls := [], content := some content }) =
      { requests := 1, dispatched := [] } := by
  have hx : extractToolCalls (pyStrip content) = [] := by
    unfold extractToolCalls
    rw [h]
    simp
  refine ⟨hx, ?_⟩
  simp [processTurn, max_iterations, turnLoop, hne, hx]

set_option maxRecDepth 8192 in
/-- Witness for the amended C5 at the bare-object fragment. -/
theorem C5_amended_array_fragments_only_witness :
    extractToolCalls (pyStrip c5BareObj) = [] ∧
    processTurn (fun _ => some { toolCalls := [], content := some c5BareObj }) =
      { requests := 1, dispatched := [] } :=
  C5_amended_array_fragments_only c5BareObj (by decide) (by decide)

/-! ## C6 — command runner -/

lemma strToList_append (a b : String) : (a ++ b).toList = a.toList ++ b.toList := by
  cases a; cases b; rfl

lemma isPrefixOfAppendSelf (l r : List Char) : List.isPrefixOf l (l ++ r) = true := by
  induction l with
  | nil => simp [List.isPrefixOf]
  | cons a t ih => simp [List.isPrefixOf, ih]

lemma timeout_msg_mentions_timed_out (t : Nat) :
    containsSub ("Command timed out after " ++ toString t ++ " seconds")
      "timed out" = true := by
  unfold containsSub
  rw [List.any_eq_true]
  have hsplit : ("Command timed out after " ++ toString t ++ " seconds").toList
      = "Command timed out after ".toList ++
        ((toString t).toList ++ " seconds".toList) := by
    rw [strToList_append, strToList_append, List.append_assoc]
  refine ⟨8, ?_, ?_⟩
  · rw [List.mem_range, hsplit]
    simp [List.length_append]
  · rw [hsplit, List.drop_append_of_le_length (by decide)]
    have hdrop : List.drop 8 "Command timed out after ".toList
        = "timed out".toList ++ " after ".toList := by decide
    rw [hdrop, List.append_assoc]
    exact isPrefixOfAppendSelf _ _

/-- Claim C6: a command that completes yields a success result carrying
stdout and stderr as two separate fields, each decoded with byte
replacement, together with the exit code — for any exit code, zero or not;
a timeout yields a failure result whose error message mentions the timeout,
and the process is killed in exactly that branch. -/
theorem C6_run_command_outcomes (cmd : String) (t : Nat) (h : cmd ≠ "") :
    (∀ (o e : List Nat) (c : Int),
      run_command_result cmd t (.completed o e c) =
        { success := true
          stdout := some (utf8DecodeReplace o)
          stderr := some (utf8DecodeReplace e)
          return_code := some c
          command := some cmd }) ∧
    run_command_result cmd t .timedOut =
      { success := false
        error := some ("Command timed out after " ++ toString t ++ " seconds")
        command := some cmd } ∧
    run_command_kills cmd .timedOut = true ∧
    containsSub ("Command timed out after " ++ toString t ++ " seconds")
      "timed out" = true := by
  refine ⟨fun o e c => ?_, ?_, ?_, timeout_msg_mentions_timed_out t⟩ <;>
    simp [run_command_result, run_command_kills, h]

/-- Witness for C6 at the spec's example `run("sleep 10", timeout=1)`. -/
theorem C6_run_command_outcomes_witness :
    run_command_result "sleep 10" 1 .timedOut =
      { success := false
        error := some ("Command timed out after " ++ toString (1 : Nat) ++ " seconds")
        command := some "sleep 10" } ∧
    run_command_kills "sleep 10" .timedOut = true ∧
    containsSub ("Command timed out after " ++ toString (1 : Nat) ++ " seconds")
      "timed out" = true :=
  ⟨(C6_run_command_outcomes "sleep 10" 1 (by decide)).2.1,
   (C6_run_command_outcomes "sleep 10" 1 (by decide)).2.2.1,
   (C6_run_command_outcomes "sleep 10" 1 (by decide)).2.2.2⟩

/-! ## C7 — dispatcher error envelope -/

/-- Claim C7: a tool name outside the registry produces the unknown-tool
failure envelope (and, the functions being total, never an exception), and
an error raised by the underlying file-access or command layer inside any
registered tool is converted at the dispatcher boundary into
`{success:false, error:<message>}`. -/
theorem C7_dispatch_error_envelope :
    (∀ (env : ToolEnv) (w : Bool) (name : String) (args : List (String × Json)),
      name ∉ ["write_file", "read_file", "list_directory", "run_command",
        "find_files"] →
      executeTool env w name args = toolError ("Unknown tool: " ++ name)) ∧
    (∀ (env : ToolEnv) (w : Bool) (fp c e : String), fp ≠ "" →
      env.writeFileOp (clean_file_path w fp) c = .error e →
      executeTool env w "write_file"
        [("file_path", .str fp), ("content", .str c)] = toolError e) ∧
    (∀ (env : ToolEnv) (w : Bool) (fp e : String), fp ≠ "" →
      env.readFileOp (clean_file_path w fp) = .error e →
      executeTool env w "read_file" [("file_path", .str fp)] = toolError e) ∧
    (∀ (env : ToolEnv) (w : Bool) (dir e : String),
      env.listDirectoryOp dir = .error e →
      executeTool env w "list_directory" [("directory", .str dir)] = toolError e) ∧
    (∀ (env : ToolEnv) (w : Bool) (pat e : String), pat ≠ "" →
      env.findFilesOp pat = .error e →
      executeTool env w "find_files" [("pattern", .str pat)] = toolError e) ∧
    (∀ (env : ToolEnv) (w : Bool) (cmd e : String), cmd ≠ "" →
      env.runOutcome cmd 30 = .launchFailed e →
      executeTool env w "run_command" [("command", .str cmd)] = toolError e) := by
  refine ⟨?_, ?_, ?_, ?_, ?_, ?_⟩
  · intro env w name args hmem
    have h1 : ¬(name = "write_file") := fun hq => hmem (by simp [hq])
    have h2 : ¬(name = "read_file") := fun hq => hmem (by simp [hq])
    have h3 : ¬(name = "list_directory") := fun hq => hmem (by simp [hq])
    have h4 : ¬(name = "run_command") := fun hq => hmem (by simp [hq])
    have h5 : ¬(name = "find_files") := fun hq => hmem (by simp [hq])
    simp only [executeTool, if_neg h1, if_neg h2, if_neg h3, if_neg h4, if_neg h5]
  · intro env w fp c e hfp herr
    simp [executeTool, executeWriteFile, argGet, hfp, herr]
  · intro env w fp e hfp herr
    simp [executeTool, executeReadFile, argGet, hfp, herr]
  · intro env w dir e herr
    simp [executeTool, executeListDirectory, argGet, herr]
  · intro env w pat e hpat herr
    simp [executeTool, executeFindFiles, argGet, hpat, herr]
  · intro env w cmd e hcmd herr
    simp [executeTool, executeRunCommand, argGet, run_command_result, hcmd, herr]

/-- An environment in which every underlying operation fails with `boom`. -/
def failingEnv : ToolEnv :=
  { writeFileOp := fun _ _ => .error "boom"
    readFileOp := fun _ => .error "boom"
    listDirectoryOp := fun _ => .error "boom"
    findFilesOp := fun _ => .error "boom"
    runOutcome := fun _ _ => .launchFailed "boom" }

/-- Witness for C7: unknown-tool envelope and error conversion on concrete
inputs in the all-failing environment. -/
theorem C7_dispatch_error_envelope_witness :
    executeTool failingEnv false "frobnicate" [] =
      toolError ("Unknown tool: " ++ "frobnicate") ∧
    executeTool failingEnv false "write_file"
      [("file_path", .str "x.txt"), ("content", .str "y")] = toolError "boom" ∧
    executeTool failingEnv false "run_command"
      [("command", .str "ls")] = toolError "boom" :=
  ⟨C7_dispatch_error_envelope.1 failingEnv false "frobnicate" [] (by decide),
   C7_dispatch_error_envelope.2.1 failingEnv false "x.txt" "y" "boom"
     (by decide) rfl,
   C7_dispatch_error_envelope.2.2.2.2.2 failingEnv false "ls" "boom"
     (by decide) rfl⟩

/-! ## C8 — read_file error and decode cascade -/

/-- Claim C8: for a path inside the workspace, `read_file` fails with the
not-found error when the path does not exist, with the not-a-file error when
it names a directory; otherwise it returns the first successful decode in
the order UTF-8, latin-1, cp1252, utf-16, and fails with the decode error
exactly when all four decodes fail. -/
theorem C8_read_file_errors (p : String) (present isFile : Bool)
    (d1 d2 d3 d4 : Option String) :
    (present = false →
      read_file_op p true present isFile d1 d2 d3 d4 =
        .error (.fileNotFound ("File " ++ p ++ " not found"))) ∧
    (present = true → isFile = false →
      read_file_op p true present isFile d1 d2 d3 d4 =
        .error (.valueError ("Path " ++ p ++ " is not a file"))) ∧
    (present = true → isFile = true →
      ((read_file_op p true present isFile d1 d2 d3 d4 =
          .error (.valueError ("Could not decode file " ++ p))) ↔
        (d1 = none ∧ d2 = none ∧ d3 = none ∧ d4 = none)) ∧
      (∀ s, d1 = some s →
        read_file_op p true present isFile d1 d2 d3 d4 = .ok s) ∧
      (∀ s, d1 = none → d2 = some s →
        read_file_op p true present isFile d1 d2 d3 d4 = .ok s) ∧
      (∀ s, d1 = none → d2 = none → d3 = some s →
        read_file_op p true present isFile d1 d2 d3 d4 = .ok s) ∧
      (∀ s, d1 = none → d2 = none → d3 = none → d4 = some s →
        read_file_op p true present isFile d1 d2 d3 d4 = .ok s)) := by
  refine ⟨fun hp => by simp [read_file_op, hp], fun hp hf => by simp [read_file_op, hp, hf],
    fun hp hf => ⟨?_, ?_, ?_, ?_, ?_⟩⟩
  · cases d1 <;> cases d2 <;> cases d3 <;> cases d4 <;>
      simp [read_file_op, hp, hf]
  · intro s h1; simp [read_file_op, hp, hf, h1]
  · intro s h1 h2; simp [read_file_op, hp, hf, h1, h2]
  · intro s h1 h2 h3; simp [read_file_op, hp, hf, h1, h2, h3]
  · intro s h1 h2 h3 h4; simp [read_file_op, hp, hf, h1, h2, h3, h4]

/-- Witness for C8: the not-found error, a latin-1 fallback success, and the
all-decoders-fail decode error, each on a concrete state. -/
theorem C8_read_file_errors_witness :
    read_file_op "f.txt" true false true none none none none =
      .error (.fileNotFound ("File " ++ "f.txt" ++ " not found")) ∧
    read_file_op "f.txt" true true true none (some "legacy") none none =
      .ok "legacy" ∧
    read_file_op "f.txt" true true true none none none none =
      .error (.valueError ("Could not decode file " ++ "f.txt")) :=
  ⟨(C8_read_file_errors "f.txt" false true none none none none).1 rfl,
   ((C8_read_file_errors "f.txt" true true none (some "legacy") none none).2.2
      rfl rfl).2.2.1 "legacy" rfl rfl,
   ((C8_read_file_errors "f.txt" true true none none none none).2.2
      rfl rfl).1.mpr ⟨rfl, rfl, rfl, rfl⟩⟩

/-! ## C9 — directory listing order and filtering -/

lemma fiLE_trans : ∀ a b c : FileInfo,
    fiLE a b = true → fiLE b c = true → fiLE a c = true := by
  intro a b c hab hbc
  cases ha : a.is_dir <;> cases hb : b.is_dir <;> cases hc : c.is_dir <;>
    simp_all [fiLE, decide_eq_true_eq] <;>
    try exact le_trans hab hbc

lemma fiLE_total : ∀ a b : FileInfo, (fiLE a b || fiLE b a) = true := by
  intro a b
  cases ha : a.is_dir <;> cases hb : b.is_dir <;>
    simp [fiLE, ha, hb, decide_eq_true_eq] <;>
    try exact le_total _ _

/-- Claim C9: the listing is a permutation of the entries that survive the
hidden filter (dotted names dropped unless `include_hidden`) and the ignore
filter (dropped unconditionally, `include_hidden` or not), and it is sorted
so that no file precedes a directory and, within a group of equal `is_dir`,
paths ascend in case-insensitive order. -/
theorem C9_list_directory_order (entries : List DirEntry) (includeHidden : Bool)
    (ignore : String → Bool) :
    (list_directory entries includeHidden ignore).Pairwise
      (fun a b => (a.is_dir = false → b.is_dir = false) ∧
        (a.is_dir = b.is_dir → pyLower a.path ≤ pyLower b.path)) ∧
    (list_directory entries includeHidden ignore).Perm
      ((entries.filter (fun e =>
          (includeHidden || !(strStartsWith e.name ".")) && !(ignore e.relPath))).map
        fiOfEntry) := by
  constructor
  · have hs := @List.sorted_mergeSort FileInfo fiLE fiLE_trans fiLE_total
      ((entries.filter (keepEntry includeHidden ignore)).map fiOfEntry)
    refine hs.imp ?_
    intro a b hab
    constructor
    · intro haf
      cases hbd : b.is_dir
      · rfl
      · exfalso
        simp [fiLE, haf, hbd] at hab
    · intro heq
      cases had : a.is_dir <;>
        · rw [had] at heq
          simp [fiLE, had, ← heq, decide_eq_true_eq] at hab
          simpa using hab
  · exact List.mergeSort_perm _ fiLE

/-! ## C10 — placeholder cleanup strips every leading slash -/

lemma dropWhile_head_not (p : Char → Bool) (l : List Char) (c : Char)
    (t : List Char) (h : l.dropWhile p = c :: t) : p c = false := by
  induction l with
  | nil => simp [List.dropWhile] at h
  | cons a as ih =>
    rw [List.dropWhile_cons] at h
    by_cases hp : p a = true
    · rw [if_pos hp] at h
      exact ih h
    · rw [if_neg hp] at h
      cases h
      simpa using hp

lemma lstripSlashes_no_lead (u : String) :
    strStartsWith (lstripSlashes u) "/" = false ∧
    strStartsWith (lstripSlashes u) "\\" = false := by
  unfold lstripSlashes strStartsWith
  cases hEq : u.toList.dropWhile (fun c => c = '/' || c = '\\') with
  | nil => constructor <;> rfl
  | cons c t =>
    have hc := dropWhile_head_not _ _ _ _ hEq
    simp only [Bool.or_eq_false_iff, decide_eq_false_iff_not] at hc
    constructor
    · show List.isPrefixOf ['/'] (c :: t) = false
      simp [List.isPrefixOf]
      exact fun hx => hc.1 hx.symm
    · show List.isPrefixOf ['\\'] (c :: t) = false
      simp [List.isPrefixOf]
      exact fun hx => hc.2 hx.symm

/-- Claim C10: for every input and on every platform (not only Windows) the
placeholder cleanup returns a path with no leading `/` or `\`, so an
absolute POSIX-style path handed to `write_file`/`read_file` is silently
re-interpreted relative to the workspace root: `/etc/passwd` becomes
`etc/passwd`, and dispatching `write_file` on `/etc/passwd` behaves
identically to dispatching it on `etc/passwd` in every environment. -/
theorem C10_clean_path_relativizes (w : Bool) (s : String) :
    strStartsWith (clean_file_path w s) "/" = false ∧
    strStartsWith (clean_file_path w s) "\\" = false ∧
    clean_file_path false "/etc/passwd" = "etc/passwd" ∧
    (∀ env : ToolEnv,
      executeWriteFile env false
        [("file_path", .str "/etc/passwd"), ("content", .str "y")] =
      executeWriteFile env false
        [("file_path", .str "etc/passwd"), ("content", .str "y")]) := by
  refine ⟨(lstripSlashes_no_lead _).1, (lstripSlashes_no_lead _).2, rfl,
    fun env => rfl⟩
